import Mathlib

/-!
Verification of the meal planner application (meal_planner_app/app.py).

The development embeds the pure core of the application:
  - the item and meal data model (Python dictionaries with optional keys
    become structures with Option-valued fields; a missing key is none);
  - calculate_macros, the aggregator;
  - reshape_arabic, the text-shaping wrapper (the external shaping
    pipeline arabic_reshaper + bidi.get_display is abstracted as a
    function parameter shape : String -> Option String, where none
    stands for the exception branch of the try/except);
  - create_meal_plan_pdf, restricted to its data content: the header
    text, the table cell strings, and the two footer texts.  ReportLab
    layout (colors, widths, byte serialization) carries no data and is
    not modelled; the Python max() over an empty sequence, which raises
    ValueError, is modelled by an Option result.
Numbers entered in the UI are Python ints, embedded as Int.
-/

/-- A food item dictionary.  Each Python key may be absent, hence Option.
Field order follows the dictionary literal in the source. -/
structure FoodItem where
  food_text : Option String := none
  amount : Option Int := none
  protein : Option Int := none
  carbs : Option Int := none
  fat : Option Int := none
deriving Repr, DecidableEq

/-- A meal dictionary: a name label and an optional item list
(meal.get with default [] is used throughout the source). -/
structure Meal where
  name : Option String := none
  items : Option (List FoodItem) := none
deriving Repr, DecidableEq

/-- meal.get of the items key with default [], as in the source. -/
def Meal.getItems (m : Meal) : List FoodItem :=
  m.items.getD []

/-- The flattened item iteration
(for meal in meals_data for item in meal.get with default []). -/
def allItems (meals_data : List Meal) : List FoodItem :=
  (meals_data.map Meal.getItems).flatten

/-- calculate_macros from app.py: three sums with missing fields
defaulting to 0, and calories derived as protein*4 + carbs*4 + fat*9. -/
def calculate_macros (meals_data : List Meal) : Int × Int × Int × Int :=
  let total_protein := ((allItems meals_data).map (fun i => i.protein.getD 0)).sum
  let total_carbs := ((allItems meals_data).map (fun i => i.carbs.getD 0)).sum
  let total_fat := ((allItems meals_data).map (fun i => i.fat.getD 0)).sum
  (total_protein, total_carbs, total_fat,
    total_protein * 4 + total_carbs * 4 + total_fat * 9)

/-- reshape_arabic from app.py.  The argument shape abstracts the external
pipeline arabic_reshaper.reshape followed by bidi get_display; a none
result models the exception caught by the bare except, whose handler
returns the raw text. -/
def reshape_arabic (shape : String → Option String) (text : String) : String :=
  if text = "" then ""
  else (shape text).getD text

/-- The per-item cell text built in create_meal_plan_pdf before shaping:
the food_text, prefixed by the amount and the unit word when the amount
is truthy (present and non-zero). -/
def cellText (item : FoodItem) : String :=
  let food_text := item.food_text.getD ""
  match item.amount with
  | some a => if a = 0 then food_text else toString a ++ " جرام " ++ food_text
  | none => food_text

/-- The item list of the meal at index i, empty when the index is out of
range (the source guards with meal_idx < len(meals_data)). -/
def itemsAt (meals_data : List Meal) (i : Nat) : List FoodItem :=
  match meals_data.get? i with
  | some meal => meal.getItems
  | none => []

/-- One table cell of create_meal_plan_pdf: the shaped item text when the
slot is occupied, the empty string otherwise (appended unshaped). -/
def gridCell (shape : String → Option String) (meals_data : List Meal)
    (row_idx meal_idx : Nat) : String :=
  match meals_data.get? meal_idx with
  | some meal =>
    match meal.getItems.get? row_idx with
    | some item => reshape_arabic shape (cellText item)
    | none => ""
  | none => ""

/-- One body row: the loop for meal_idx in range(4, -1, -1), so displayed
column j holds meal index 4 - j. -/
def gridRow (shape : String → Option String) (meals_data : List Meal)
    (row_idx : Nat) : List String :=
  (List.range 5).map (fun j => gridCell shape meals_data row_idx (4 - j))

/-- The largest item count among the meals (0 for an empty collection). -/
def maxItemCount (meals_data : List Meal) : Nat :=
  (meals_data.map (fun m => m.getItems.length)).foldr max 0

/-- max over the generator of item counts: Python max raises ValueError
on an empty sequence, modelled as none. -/
def max_items (meals_data : List Meal) : Option Nat :=
  if meals_data = [] then none else some (maxItemCount meals_data)

/-- The five shaped column headers, listed fifth meal first. -/
def meal_headers (shape : String → Option String) : List String :=
  [reshape_arabic shape "الوجبة الخامسة",
   reshape_arabic shape "الوجبة الرابعة",
   reshape_arabic shape "الوجبة الثالثة",
   reshape_arabic shape "الوجبة الثانية",
   reshape_arabic shape "الوجبة الأولى"]

/-- The table data: the header row followed by one gridRow per row index
below max_items. -/
def tableData (shape : String → Option String) (meals_data : List Meal)
    (n : Nat) : List (List String) :=
  meal_headers shape :: (List.range n).map (gridRow shape meals_data)

/-- The header paragraph text before shaping, built from the declared
total_calories argument. -/
def header_text (total_calories : Int) : String :=
  "النظام الرابع : إجمالي السعرات الحرارية: " ++ toString total_calories
    ++ " سعر حراري"

/-- The macros summary paragraph text before shaping, built from the
computed totals. -/
def macros_text (total_protein total_carbs total_fat : Int) : String :=
  "إجمالي البروتين: " ++ toString total_protein
    ++ " غ     إجمالي الكربوهيدرات: " ++ toString total_carbs
    ++ " غ     إجمالي الدهون: " ++ toString total_fat ++ " غ"

/-- The static website footer text before shaping. -/
def website_text : String :=
  "HTTPS://CAP-SHADOW.NETLIFY.APP/"

/-- The data content of the generated document: header paragraph, table
rows (header row included, as in the source list data), and the two
footer paragraphs. -/
structure PdfDoc where
  header : String
  table : List (List String)
  macrosFooter : String
  websiteFooter : String
deriving Repr, DecidableEq

/-- create_meal_plan_pdf from app.py, restricted to its data content.
none models the ValueError raised by max() on a zero-meal collection.
The client_name argument is accepted and, as in the source body, unused. -/
def create_meal_plan_pdf (shape : String → Option String)
    (client_name : String) (total_calories : Int)
    (meals_data : List Meal) : Option PdfDoc :=
  match max_items meals_data with
  | none => none
  | some n =>
    let m := calculate_macros meals_data
    some
      { header := reshape_arabic shape (header_text total_calories)
        table := tableData shape meals_data n
        macrosFooter := reshape_arabic shape (macros_text m.1 m.2.1 m.2.2.1)
        websiteFooter := reshape_arabic shape website_text }

/-- C1: the returned total calories equal totalProtein*4 + totalCarbs*4 +
totalFat*9, where the three totals are the sums of the corresponding
fields (missing fields as 0) over all items of all meals. -/
theorem calories_formula (meals_data : List Meal) :
    (calculate_macros meals_data).2.2.2 =
      (calculate_macros meals_data).1 * 4
        + (calculate_macros meals_data).2.1 * 4
        + (calculate_macros meals_data).2.2.1 * 9
    ∧ (calculate_macros meals_data).1 =
        ((allItems meals_data).map (fun i => i.protein.getD 0)).sum
    ∧ (calculate_macros meals_data).2.1 =
        ((allItems meals_data).map (fun i => i.carbs.getD 0)).sum
    ∧ (calculate_macros meals_data).2.2.1 =
        ((allItems meals_data).map (fun i => i.fat.getD 0)).sum := by
  exact ⟨rfl, rfl, rfl, rfl⟩

/-- The identity shaping pipeline (a shaper that succeeds unchanged). -/
def shapeId : String → Option String := fun s => some s

/-- A shaping pipeline that always fails (the except branch fires). -/
def shapeFail : String → Option String := fun _ => none

/-- An ASCII-only string: every character is below code point 128. -/
def isASCII (s : String) : Bool :=
  s.data.all (fun c => c.toNat < 128)

/-- An item with every macro field replaced by its defaulted value. -/
def zeroFill (i : FoodItem) : FoodItem :=
  { i with protein := some (i.protein.getD 0)
           carbs := some (i.carbs.getD 0)
           fat := some (i.fat.getD 0) }

/-- A meal with its item list made explicit and every item zero-filled. -/
def zeroFillMeal (m : Meal) : Meal :=
  { m with items := some (m.getItems.map zeroFill) }

lemma allItems_cons (m : Meal) (t : List Meal) :
    allItems (m :: t) = m.getItems ++ allItems t := rfl

lemma allItems_zeroFill (md : List Meal) :
    allItems (md.map zeroFillMeal) = (allItems md).map zeroFill := by
  induction md with
  | nil => rfl
  | cons m t ih =>
    rw [List.map_cons, allItems_cons, allItems_cons, List.map_append, ih]
    rfl

lemma allItems_nil_of_empty (md : List Meal)
    (h : ∀ m ∈ md, m.getItems = []) : allItems md = [] := by
  induction md with
  | nil => rfl
  | cons m t ih =>
    rw [allItems_cons, h m (List.mem_cons_self _ _),
      ih (fun x hx => h x (List.mem_cons_of_mem _ hx))]
    rfl

/-- C5: the aggregator is total on any collection (including zero meals),
and a missing protein, carbs or fat field contributes zero: zero-filling
every missing field leaves the computed totals unchanged. -/
theorem macros_missing_fields_as_zero (meals_data : List Meal) :
    calculate_macros (meals_data.map zeroFillMeal) = calculate_macros meals_data
    ∧ calculate_macros [] = (0, 0, 0, 0) := by
  constructor
  · simp only [calculate_macros, allItems_zeroFill, List.map_map]
    rfl
  · rfl

/-- C6: a collection in which every meal has an empty item list aggregates
to the all-zero summary. -/
theorem macros_all_empty_zero (meals_data : List Meal)
    (h : ∀ m ∈ meals_data, m.getItems = []) :
    calculate_macros meals_data = (0, 0, 0, 0) := by
  simp [calculate_macros, allItems_nil_of_empty meals_data h]

/-- Witness for macros_all_empty_zero at a concrete two-meal collection. -/
theorem macros_all_empty_zero_witness :
    calculate_macros [{ name := some "a", items := some [] },
      { name := none, items := none }] = (0, 0, 0, 0) :=
  macros_all_empty_zero _ (by decide)

lemma create_eq_some (shape : String → Option String) (client_name : String)
    (total_calories : Int) (meals_data : List Meal) (h : meals_data ≠ []) :
    create_meal_plan_pdf shape client_name total_calories meals_data = some
      { header := reshape_arabic shape (header_text total_calories)
        table := tableData shape meals_data (maxItemCount meals_data)
        macrosFooter := reshape_arabic shape
          (macros_text (calculate_macros meals_data).1
            (calculate_macros meals_data).2.1 (calculate_macros meals_data).2.2.1)
        websiteFooter := reshape_arabic shape website_text } := by
  simp [create_meal_plan_pdf, max_items, h]

lemma body_get_inv (shape : String → Option String) (meals_data : List Meal)
    (n r : Nat) (row : List String)
    (h : ((tableData shape meals_data n).drop 1).get? r = some row) :
    r < n ∧ row = gridRow shape meals_data r := by
  have hbody : (tableData shape meals_data n).drop 1
      = (List.range n).map (gridRow shape meals_data) := rfl
  rw [hbody, List.get?_map] at h
  rcases Nat.lt_or_ge r n with hr | hr
  · rw [List.get?_range hr] at h
    exact ⟨hr, (Option.some.inj h).symm⟩
  · rw [List.get?_eq_none.mpr (by simpa using hr)] at h
    cases h

lemma gridRow_get (shape : String → Option String) (meals_data : List Meal)
    (r j : Nat) (hj : j < 5) :
    (gridRow shape meals_data r).get? j
      = some (gridCell shape meals_data r (4 - j)) := by
  rw [gridRow, List.get?_map, List.get?_range hj]
  rfl

lemma gridCell_empty (shape : String → Option String) (meals_data : List Meal)
    (r i : Nat) (h : (itemsAt meals_data i).length ≤ r) :
    gridCell shape meals_data r i = "" := by
  unfold gridCell
  unfold itemsAt at h
  cases hm : meals_data.get? i with
  | none => simp [hm]
  | some meal =>
    rw [hm] at h
    have h2 : meal.getItems.length ≤ r := h
    have hnone : meal.getItems[r]? = none := by
      rw [← List.get?_eq_getElem?]
      exact List.get?_eq_none.mpr h2
    simp [hm, hnone]

lemma gridCell_item (shape : String → Option String) (meals_data : List Meal)
    (r i : Nat) (item : FoodItem)
    (h : (itemsAt meals_data i).get? r = some item) :
    gridCell shape meals_data r i = reshape_arabic shape (cellText item) := by
  unfold gridCell
  unfold itemsAt at h
  cases hm : meals_data.get? i with
  | none => rw [hm] at h; cases h
  | some meal =>
    rw [hm] at h
    have h2 : meal.getItems.get? r = some item := h
    rw [List.get?_eq_getElem?] at h2
    simp [hm, h2]

lemma le_foldr_max (x : Nat) (l : List Nat) (hx : x ∈ l) :
    x ≤ l.foldr max 0 := by
  induction l with
  | nil => cases hx
  | cons a t ih =>
    rcases List.mem_cons.mp hx with h | h
    · subst h; exact le_max_left _ _
    · exact le_trans (ih h) (le_max_right _ _)

lemma foldr_max_mem (l : List Nat) (h : l ≠ []) : l.foldr max 0 ∈ l := by
  induction l with
  | nil => exact absurd rfl h
  | cons a t ih =>
    cases t with
    | nil => simp
    | cons b u =>
      rcases le_total a ((b :: u).foldr max 0) with hle | hle
      · have he : (a :: b :: u).foldr max 0 = (b :: u).foldr max 0 :=
          max_eq_right hle
        rw [he]
        exact List.mem_cons_of_mem _ (ih (by simp))
      · have he : (a :: b :: u).foldr max 0 = a := max_eq_left hle
        rw [he]
        exact List.mem_cons_self _ _

lemma maxItemCount_le (meals_data : List Meal) (m : Meal)
    (hm : m ∈ meals_data) :
    m.getItems.length ≤ maxItemCount meals_data :=
  le_foldr_max _ _ (List.mem_map.mpr ⟨m, hm, rfl⟩)

lemma maxItemCount_attained (meals_data : List Meal) (h : meals_data ≠ []) :
    ∃ m ∈ meals_data, m.getItems.length = maxItemCount meals_data := by
  have hmem := foldr_max_mem (meals_data.map fun m => m.getItems.length)
    (by simpa using h)
  rcases List.mem_map.mp hmem with ⟨m, hm, he⟩
  exact ⟨m, hm, he⟩

lemma maxItemCount_zero (meals_data : List Meal)
    (h : ∀ m ∈ meals_data, m.getItems = []) : maxItemCount meals_data = 0 := by
  induction meals_data with
  | nil => rfl
  | cons m t ih =>
    have h1 : m.getItems.length = 0 := by
      rw [h m (List.mem_cons_self _ _)]; rfl
    have h2 := ih (fun x hx => h x (List.mem_cons_of_mem _ hx))
    show max m.getItems.length (maxItemCount t) = 0
    rw [h1, h2]
    simp

/-- The example item of the spec: 100 grams of rice. -/
def itemEx : FoodItem :=
  { food_text := some "rice", amount := some 100,
    protein := some 4, carbs := some 45, fat := some 1 }

/-- The example five-meal collection of the spec: only the first meal has
an item. -/
def mdEx : List Meal :=
  [{ name := some "m1", items := some [itemEx] },
   { name := some "m2", items := some [] },
   { name := some "m3", items := some [] },
   { name := some "m4", items := some [] },
   { name := some "m5", items := some [] }]

/-- The document produced from the example collection under the identity
shaper. -/
def dEx : PdfDoc :=
  { header := reshape_arabic shapeId (header_text 1700)
    table := tableData shapeId mdEx (maxItemCount mdEx)
    macrosFooter := reshape_arabic shapeId
      (macros_text (calculate_macros mdEx).1
        (calculate_macros mdEx).2.1 (calculate_macros mdEx).2.2.1)
    websiteFooter := reshape_arabic shapeId website_text }

/-- A collection whose meals all have empty item lists. -/
def mdEmptyEx : List Meal :=
  [{ name := some "m1", items := some [] }, { name := none, items := none }]

/-- C2: for a non-empty collection the generated table has exactly
maxItemCount body rows, maxItemCount is the maximum item count among the
meals, and any cell whose meal (column j holds meal 4 - j) has at most
row_idx items is the empty string. -/
theorem body_row_count_and_padding (shape : String → Option String)
    (client_name : String) (total_calories : Int) (meals_data : List Meal)
    (hne : meals_data ≠ []) (d : PdfDoc)
    (hd : create_meal_plan_pdf shape client_name total_calories meals_data
      = some d) :
    ((d.table.drop 1).length = maxItemCount meals_data
      ∧ (∀ m ∈ meals_data, m.getItems.length ≤ maxItemCount meals_data)
      ∧ (∃ m ∈ meals_data, m.getItems.length = maxItemCount meals_data))
    ∧ ∀ r : Nat, ∀ row : List String, ∀ j : Nat,
        (d.table.drop 1).get? r = some row → j < 5 →
        (itemsAt meals_data (4 - j)).length ≤ r → row.get? j = some "" := by
  rw [create_eq_some shape client_name total_calories meals_data hne] at hd
  have hd2 := Option.some.inj hd
  subst hd2
  refine ⟨⟨?_, maxItemCount_le meals_data, maxItemCount_attained meals_data hne⟩, ?_⟩
  · simp [tableData]
  · intro r row j hrow hj hlen
    rcases body_get_inv shape meals_data _ r row hrow with ⟨hr, hrow2⟩
    subst hrow2
    rw [gridRow_get shape meals_data r j hj,
      gridCell_empty shape meals_data r (4 - j) hlen]

/-- Witness for body_row_count_and_padding at the example collection:
one body row, and the column of the (empty) fifth meal is blank. -/
theorem body_row_count_and_padding_witness :
    (dEx.table.drop 1).length = maxItemCount mdEx
    ∧ (gridRow shapeId mdEx 0).get? 0 = some "" := by
  have h := body_row_count_and_padding shapeId "c" 1700 mdEx (by decide) dEx
    (by decide)
  exact ⟨h.1.1, h.2 0 (gridRow shapeId mdEx 0) 0 (by decide) (by decide)
    (by decide)⟩

/-- C3: for a five-meal collection, displayed column j of any body row
holds the (shaped) label of the item of meal index 4 - j at that row. -/
theorem columns_reversed (shape : String → Option String)
    (client_name : String) (total_calories : Int) (meals_data : List Meal)
    (h5 : meals_data.length = 5) (d : PdfDoc)
    (hd : create_meal_plan_pdf shape client_name total_calories meals_data
      = some d)
    (r : Nat) (row : List String)
    (hrow : (d.table.drop 1).get? r = some row) (j : Nat) (hj : j < 5)
    (item : FoodItem) (hitem : (itemsAt meals_data (4 - j)).get? r = some item) :
    row.get? j = some (reshape_arabic shape (cellText item)) := by
  have hne : meals_data ≠ [] := by
    intro h; rw [h] at h5; cases h5
  rw [create_eq_some shape client_name total_calories meals_data hne] at hd
  have hd2 := Option.some.inj hd
  subst hd2
  rcases body_get_inv shape meals_data _ r row hrow with ⟨hr, hrow2⟩
  subst hrow2
  rw [gridRow_get shape meals_data r j hj,
    gridCell_item shape meals_data r (4 - j) item hitem]

/-- Witness for columns_reversed: in the example collection the item of
the first stored meal appears in the rightmost displayed column (j = 4). -/
theorem columns_reversed_witness :
    (gridRow shapeId mdEx 0).get? 4
      = some (reshape_arabic shapeId (cellText itemEx)) :=
  columns_reversed shapeId "c" 1700 mdEx (by decide) dEx (by decide) 0
    (gridRow shapeId mdEx 0) (by decide) 4 (by decide) itemEx (by decide)

/-- C4: the cell label before shaping is the amount, the unit word and
the description when the amount is present and non-zero, otherwise just
the description; an unoccupied slot yields the empty string. -/
theorem cell_label_format :
    (∀ item : FoodItem, ∀ a : Int, item.amount = some a → a ≠ 0 →
        cellText item = toString a ++ " جرام " ++ item.food_text.getD "")
    ∧ (∀ item : FoodItem, item.amount = none ∨ item.amount = some 0 →
        cellText item = item.food_text.getD "")
    ∧ (∀ (shape : String → Option String) (meals_data : List Meal) (r i : Nat),
        (itemsAt meals_data i).length ≤ r → gridCell shape meals_data r i = "") := by
  refine ⟨?_, ?_, ?_⟩
  · intro item a ha h0
    simp [cellText, ha, h0]
  · rintro item (ha | ha) <;> simp [cellText, ha]
  · intro shape meals_data r i h
    exact gridCell_empty shape meals_data r i h

/-- Witness for cell_label_format at concrete items and an empty slot. -/
theorem cell_label_format_witness :
    cellText { food_text := some "x", amount := some 3 } = "3 جرام x"
    ∧ cellText { food_text := some "x", amount := some 0 } = "x"
    ∧ gridCell shapeId [] 0 0 = "" := by
  refine ⟨?_, ?_, ?_⟩
  · rw [cell_label_format.1 { food_text := some "x", amount := some 3 } 3 rfl
      (by decide)]
    decide
  · rw [cell_label_format.2.1 { food_text := some "x", amount := some 0 }
      (Or.inr rfl)]
    decide
  · exact cell_label_format.2.2 shapeId [] 0 0 (by decide)

/-- C7 counterexample: on the zero-meal collection, in which vacuously no
meal contains an item, generation does not succeed (Python max raises
ValueError on an empty sequence), so the claim fails as stated for the
empty collection. -/
theorem empty_collection_pdf_none :
    create_meal_plan_pdf shapeId "c" 1700 ([] : List Meal) = none := rfl

/-- C7 amended: for every collection with at least one meal in which no
meal contains any items, generation succeeds and the table consists of
the header row only (zero body rows). -/
theorem all_items_empty_report (shape : String → Option String)
    (client_name : String) (total_calories : Int) (meals_data : List Meal)
    (hne : meals_data ≠ [])
    (hempty : ∀ m ∈ meals_data, m.getItems = []) :
    ∃ d, create_meal_plan_pdf shape client_name total_calories meals_data
        = some d
      ∧ d.table = [meal_headers shape] := by
  refine ⟨_, create_eq_some shape client_name total_calories meals_data hne, ?_⟩
  rw [maxItemCount_zero meals_data hempty]
  rfl

/-- Witness for all_items_empty_report at a concrete all-empty collection. -/
theorem all_items_empty_report_witness :
    (create_meal_plan_pdf shapeId "c" 1700 mdEmptyEx).map PdfDoc.table
      = some [meal_headers shapeId] := by
  rcases all_items_empty_report shapeId "c" 1700 mdEmptyEx (by decide)
    (by decide) with ⟨d, hd, ht⟩
  rw [hd]
  simp [ht]

/-- C8: the header paragraph is the shaped text built from the declared
total_calories argument of the renderer (not from the computed calories),
and the footer paragraphs are the shaped computed-macros summary and the
static website attribution line. -/
theorem header_footer_content (shape : String → Option String)
    (client_name : String) (total_calories : Int) (meals_data : List Meal)
    (d : PdfDoc)
    (hd : create_meal_plan_pdf shape client_name total_calories meals_data
      = some d) :
    d.header = reshape_arabic shape (header_text total_calories)
    ∧ d.macrosFooter = reshape_arabic shape
        (macros_text (calculate_macros meals_data).1
          (calculate_macros meals_data).2.1 (calculate_macros meals_data).2.2.1)
    ∧ d.websiteFooter = reshape_arabic shape website_text := by
  have hne : meals_data ≠ [] := by
    intro h
    subst h
    cases hd
  rw [create_eq_some shape client_name total_calories meals_data hne] at hd
  have hd2 := Option.some.inj hd
  subst hd2
  exact ⟨rfl, rfl, rfl⟩

/-- Witness for header_footer_content at the example document. -/
theorem header_footer_content_witness :
    dEx.header = reshape_arabic shapeId (header_text 1700)
    ∧ dEx.macrosFooter = reshape_arabic shapeId
        (macros_text (calculate_macros mdEx).1
          (calculate_macros mdEx).2.1 (calculate_macros mdEx).2.2.1)
    ∧ dEx.websiteFooter = reshape_arabic shapeId website_text :=
  header_footer_content shapeId "c" 1700 mdEx dEx (by decide)

/-- C9: reshape_arabic is a total function; it maps the empty string to
the empty string, falls back to the raw text whenever the external shaper
fails, and is idempotent on ASCII text for any shaper that, like the real
pipeline, acts as the identity on ASCII input when it succeeds. -/
theorem reshape_total_and_idempotent (shape : String → Option String)
    (hshape : ∀ s : String, isASCII s = true → shape s = some s ∨ shape s = none) :
    reshape_arabic shape "" = ""
    ∧ (∀ t : String, shape t = none → reshape_arabic shape t = t)
    ∧ (∀ t : String, isASCII t = true →
        reshape_arabic shape (reshape_arabic shape t) = reshape_arabic shape t) := by
  refine ⟨rfl, ?_, ?_⟩
  · intro t ht
    by_cases h0 : t = ""
    · subst h0; rfl
    · simp [reshape_arabic, h0, ht]
  · intro t ht
    have hfix : reshape_arabic shape t = t := by
      by_cases h0 : t = ""
      · subst h0; rfl
      · rcases hshape t ht with h | h <;> simp [reshape_arabic, h0, h]
    rw [hfix]
    exact hfix

/-- Witness for reshape_total_and_idempotent under the identity shaper
and the always-failing shaper. -/
theorem reshape_total_and_idempotent_witness :
    reshape_arabic shapeId "" = ""
    ∧ reshape_arabic shapeFail "abc" = "abc"
    ∧ reshape_arabic shapeId (reshape_arabic shapeId "abc")
        = reshape_arabic shapeId "abc" := by
  have h1 := reshape_total_and_idempotent shapeId (fun s _ => Or.inl rfl)
  have h2 := reshape_total_and_idempotent shapeFail (fun s _ => Or.inr rfl)
  exact ⟨h1.1, h2.2.1 "abc" rfl, h1.2.2 "abc" (by decide)⟩

/-- C10: document generation succeeds exactly on non-empty collections:
it yields a document for every collection with at least one meal and none
(the ValueError of max) for the zero-meal collection, while the
aggregator does accept the zero-meal collection. -/
theorem pdf_requires_nonempty (shape : String → Option String)
    (client_name : String) (total_calories : Int) :
    (∀ meals_data : List Meal, meals_data ≠ [] →
        ∃ d, create_meal_plan_pdf shape client_name total_calories meals_data
          = some d)
    ∧ create_meal_plan_pdf shape client_name total_calories [] = none
    ∧ calculate_macros [] = (0, 0, 0, 0) := by
  refine ⟨?_, rfl, rfl⟩
  intro meals_data h
  exact ⟨_, create_eq_some shape client_name total_calories meals_data h⟩

/-- Witness for pdf_requires_nonempty: concrete failure on zero meals and
success on the example collection. -/
theorem pdf_requires_nonempty_witness :
    create_meal_plan_pdf shapeId "w" 2000 ([] : List Meal) = none
    ∧ (create_meal_plan_pdf shapeId "w" 2000 mdEx).isSome = true := by
  have h := pdf_requires_nonempty shapeId "w" 2000
  refine ⟨h.2.1, ?_⟩
  rcases h.1 mdEx (by decide) with ⟨d, hd⟩
  rw [hd]
  rfl
